import Mathlib

/-!
Verification development for the M.E.R.C.Y Integration System repository.

The repository consists of a validator CLI (`validate-integration.js` /
`mercy.js validate`), a scaffolder CLI (`init-integration.js` / `mercy.js init`),
and a base class (`integration-template.js`).  This file gives a shallow
embedding of the pure computational content of those scripts:

* JavaScript regular-expression matching (only the constructs used by the
  fixed `SECURITY_PATTERNS` table: literals, `\s`, the quote classes,
  `.`, `*`, `+` and top-level alternation) is embedded as a backtracking
  matcher over `List Char` with JavaScript's greedy, leftmost,
  non-overlapping global-match counting semantics.
* `String.prototype.includes`, `String.prototype.replace` with a global
  literal pattern, `split('\n').length`, `toLowerCase`, `toUpperCase` and
  the scaffolder's `toPascalCase` are embedded as executable functions on
  `List Char`.  Case mappings are the ASCII ones (all inputs relevant to
  the claims are ASCII).
* The validator `validateIntegration` is embedded as a pure function from a
  directory snapshot (`Dir`) to a `VResult`.  File contents, filesystem
  read errors and JSON parse outcomes are part of the snapshot: the
  validator only consumes the four fixed paths, the `test` directory flag,
  and the parsed shapes of the two JSON files, so a snapshot determines a
  run.  JSON field values are modelled at the granularity the validator
  observes: truthiness for `name`/`description`/`developer`, and
  string-or-absent for `id`/`version`/`category` (the schema's string
  fields); `none` stands for an absent or falsy field.
-/

set_option maxRecDepth 1000000
set_option maxHeartbeats 4000000

/-! ## Character classes and pattern tokens for the embedded regexes -/

/-- Character classes appearing in the `SECURITY_PATTERNS` regexes:
`\s`, the quote class `['"`]`, its complement `[^'"`]`, and `.` . -/
inductive CClass where
  | ws
  | quote
  | notQuote
  | dot
  deriving DecidableEq

/-- Membership test of a character in a class, per JavaScript semantics
(`\s` is modelled by its ASCII members, `.` excludes the line terminators). -/
def CClass.test : CClass → Char → Bool
  | .ws, c => c = ' ' || c = '\t' || c = '\n' || c = '\r' || c = '\x0b' || c = '\x0c'
  | .quote, c => c = '\x27' || c = '\x22' || c = '\x60'
  | .notQuote, c => !(c = '\x27' || c = '\x22' || c = '\x60')
  | .dot, c => !(c = '\n' || c = '\r' || c = '\u2028' || c = '\u2029')

/-- One token of a regex: a literal character, a single class character,
a greedy `*` over a class, or a greedy `+` over a class. -/
inductive PTok where
  | lit (c : Char)
  | cls (k : CClass)
  | star (k : CClass)
  | plus (k : CClass)
  deriving DecidableEq

/-- Literal tokens of a string. -/
def lits (s : String) : List PTok := s.data.map PTok.lit

/-- Greedy backtracking for a star: try consuming `n` further characters of
`s` first (the greedy choice), then fewer, continuing with `f` each time. -/
def tryDrops (f : List Char → Option (List Char)) (s : List Char) : Nat → Option (List Char)
  | 0 => f s
  | n + 1 =>
    match f (s.drop (n + 1)) with
    | some r => some r
    | none => tryDrops f s n

/-- Match a token sequence at the start of `s`, returning the remainder on
success.  Stars and pluses are greedy with backtracking, exactly the order a
JavaScript regex engine explores, so on success the returned remainder is the
one the JavaScript engine produces. -/
def matchSeq : List PTok → List Char → Option (List Char)
  | [], s => some s
  | .lit c :: ps, s =>
    match s with
    | [] => none
    | x :: s' => if x = c then matchSeq ps s' else none
  | .cls k :: ps, s =>
    match s with
    | [] => none
    | x :: s' => if k.test x then matchSeq ps s' else none
  | .star k :: ps, s => tryDrops (matchSeq ps) s (s.takeWhile k.test).length
  | .plus k :: ps, s =>
    match s with
    | [] => none
    | x :: s' => if k.test x then tryDrops (matchSeq ps) s' (s'.takeWhile k.test).length else none

/-- Match an alternation (list of alternative token sequences) at the start
of `s`; alternatives are tried left to right as in JavaScript. -/
def matchAlt : List (List PTok) → List Char → Option (List Char)
  | [], _ => none
  | a :: rest, s =>
    match matchSeq a s with
    | some r => some r
    | none => matchAlt rest s

/-- Count global matches the way `String.prototype.match(re)` with the `g`
flag does: scan left to right, count each leftmost match, resume after it
(advancing one position on an empty match).  `skip` is the number of
characters still to be skipped over from the previous match. -/
def countAux (p : List (List PTok)) : List Char → Nat → Nat
  | [], skip =>
    match skip with
    | 0 => if (matchAlt p []).isSome then 1 else 0
    | _ + 1 => 0
  | x :: s, skip =>
    match skip with
    | n + 1 => countAux p s n
    | 0 =>
      match matchAlt p (x :: s) with
      | none => countAux p s 0
      | some r => 1 + countAux p s ((x :: s).length - r.length - 1)

/-- Number of matches of `re.match(...)` with the global flag on `s`
(`0` corresponds to JavaScript's `null` result). -/
def countMatches (p : List (List PTok)) (s : String) : Nat :=
  countAux p s.data 0

/-- Existence of a match of the alternation anywhere in the text (the
question `s.match(re) !== null`); a separate scanner whose recursion shape
lets large texts be checked by evaluation. -/
def hasMatchChars (p : List (List PTok)) : List Char → Bool
  | [] => (matchAlt p []).isSome
  | x :: s => (matchAlt p (x :: s)).isSome || hasMatchChars p s

/-! ## JavaScript string primitives used by the scripts -/

/-- Boolean test that `p` is a prefix of `s` (character lists). -/
def prefixChars : List Char → List Char → Bool
  | [], _ => true
  | _ :: _, [] => false
  | a :: as, b :: bs => a = b && prefixChars as bs

/-- Scan of `includesChars sub s`: `sub` occurs as a contiguous run in `s`. -/
def includesChars (sub : List Char) : List Char → Bool
  | [] => prefixChars sub []
  | x :: s => prefixChars sub (x :: s) || includesChars sub s

/-- JavaScript `s.includes(sub)`. -/
def jsIncludes (s sub : String) : Bool := includesChars sub.data s.data

/-- Replacement scan for `String.prototype.replace` with a global literal
pattern: leftmost, non-overlapping; `skip` counts characters of a match still
to be dropped.  The replacement text is inserted literally (no `$` patterns
occur in the scripts' replacement strings for the inputs considered here). -/
def replaceAux (pat rep : List Char) : List Char → Nat → List Char
  | [], _ => []
  | _ :: s, n + 1 => replaceAux pat rep s n
  | x :: s, 0 =>
    if prefixChars pat (x :: s) then rep ++ replaceAux pat rep s (pat.length - 1)
    else x :: replaceAux pat rep s 0

/-- JavaScript `s.replace(/pat/g, rep)` for a literal (escaped) pattern. -/
def jsReplaceAll (s pat rep : String) : String :=
  ⟨replaceAux pat.data rep.data s.data 0⟩

/-- Occurrences of a single character in a character list. -/
def countChar (ch : Char) : List Char → Nat
  | [] => 0
  | x :: s => if x = ch then countChar ch s + 1 else countChar ch s

/-- JavaScript `s.split('\n').length`: one more than the number of
newline characters. -/
def jsSplitNlLen (s : String) : Nat := countChar '\n' s.data + 1

/-- JavaScript `s.toUpperCase()` (ASCII; the scripts only apply it to the
ASCII severity names). -/
def jsToUpperCase (s : String) : String := ⟨s.data.map Char.toUpper⟩

/-- JavaScript `s.toLowerCase()` (ASCII; noted in the header). -/
def jsToLowerCase (s : String) : String := ⟨s.data.map Char.toLower⟩

/-- Split a character list at every occurrence of a separator character,
keeping empty segments, as JavaScript `s.split(sep)` does. -/
def splitOnChar (sep : Char) : List Char → List (List Char)
  | [] => [[]]
  | x :: s =>
    if x = sep then [] :: splitOnChar sep s
    else
      match splitOnChar sep s with
      | [] => [[x]]
      | w :: ws => (x :: w) :: ws

/-- JavaScript `word.charAt(0).toUpperCase() + word.slice(1).toLowerCase()`
on a character list. -/
def jsCapitalize : List Char → List Char
  | [] => []
  | c :: rest => Char.toUpper c :: rest.map Char.toLower

/-- The scaffolder's `toPascalCase` (`init-integration.js`, `mercy.js`):
`str.replace(/[^a-zA-Z0-9]/g, ' ').split(' ').filter(w => w.length > 0)
.map(w => w.charAt(0).toUpperCase() + w.slice(1).toLowerCase()).join('')`. -/
def toPascalCase (s : String) : String :=
  let replaced := s.data.map (fun c => if c.isAlphanum then c else ' ')
  let words := (splitOnChar ' ' replaced).filter (fun w => w.length > 0)
  ⟨(words.map jsCapitalize).flatten⟩

/-- The scaffolder's derived default integration id
(`name.toLowerCase().replace(/[^a-z0-9]/g, '-')`). -/
def derivedId (name : String) : String :=
  ⟨(jsToLowerCase name).data.map
    (fun c => if ('a' ≤ c && c ≤ 'z') || ('0' ≤ c && c ≤ '9') then c else '-')⟩

/-! ## The validator's fixed tables -/

/-- One entry of the validator's `SECURITY_PATTERNS` table.  The `pattern`
is the embedded regex as an alternation of token sequences. -/
structure SecurityRule where
  pattern : List (List PTok)
  severity : String
  message : String
  deriving DecidableEq

/-- The validator's 15-entry `SECURITY_PATTERNS` table, transcribed rule by
rule from the source (`validate-integration.js` lines 11-27). -/
def SECURITY_PATTERNS : List SecurityRule := [
  { pattern := [lits "require" ++ [.star .ws, .lit '(', .star .ws, .cls .quote] ++
      lits "child_process" ++ [.cls .quote, .star .ws, .lit ')']],
    severity := "critical", message := "Child process access forbidden" },
  { pattern := [lits "import" ++ [.plus .ws, .star .dot, .plus .ws] ++ lits "from" ++
      [.plus .ws, .cls .quote] ++ lits "child_process" ++ [.cls .quote]],
    severity := "critical", message := "Child process import forbidden" },
  { pattern := [lits "process.env"],
    severity := "critical", message := "Environment variable access forbidden" },
  { pattern := [lits "eval" ++ [.star .ws, .lit '(']],
    severity := "critical", message := "Code evaluation forbidden" },
  { pattern := [lits "new" ++ [.plus .ws] ++ lits "Function" ++ [.star .ws, .lit '(']],
    severity := "critical", message := "Function constructor forbidden" },
  { pattern := [[.lit '.'] ++ lits "exec" ++ [.star .ws, .lit '(']],
    severity := "high", message := "Process execution forbidden" },
  { pattern := [[.lit '.'] ++ lits "spawn" ++ [.star .ws, .lit '(']],
    severity := "high", message := "Process spawning forbidden" },
  { pattern := [lits "fs.writeFile"],
    severity := "high", message := "File writing forbidden (use provided APIs)" },
  { pattern := [lits "fs.unlink"],
    severity := "high", message := "File deletion forbidden" },
  { pattern := [lits "fs.rmdir"],
    severity := "high", message := "Directory deletion forbidden" },
  { pattern := [lits "require" ++ [.star .ws, .lit '(', .star .ws, .cls .quote] ++
      lits "fs" ++ [.cls .quote, .star .ws, .lit ')']],
    severity := "medium", message := "Direct filesystem access discouraged" },
  { pattern := [lits "setTimeout" ++ [.star .ws, .lit '(', .star .ws, .cls .quote,
      .star .notQuote, .cls .quote, .star .ws, .lit ',']],
    severity := "medium", message := "String-based setTimeout forbidden" },
  { pattern := [lits "setInterval" ++ [.star .ws, .lit '(', .star .ws, .cls .quote,
      .star .notQuote, .cls .quote, .star .ws, .lit ',']],
    severity := "medium", message := "String-based setInterval forbidden" },
  { pattern := [lits "while" ++ [.star .ws, .lit '(', .star .ws] ++ lits "true" ++
      [.star .ws, .lit ')']],
    severity := "medium", message := "Infinite loops detected" },
  { pattern := [lits "for" ++ [.star .ws, .lit '(', .star .ws, .lit ';', .lit ';',
      .star .ws, .lit ')']],
    severity := "medium", message := "Infinite loops detected" }]

/-- The complexity heuristic's `/function|=>/g` regex. -/
def funcPattern : List (List PTok) := [lits "function", lits "=>"]

/-- The validator's `REQUIRED_FILES` list. -/
def REQUIRED_FILES : List String :=
  ["mercy-integration.json", "package.json", "src/integration.js", "README.md"]

/-- The validator's `REQUIRED_CONFIG_FIELDS` list. -/
def REQUIRED_CONFIG_FIELDS : List String :=
  ["id", "name", "version", "description", "category", "developer"]

/-- The validator's `validCategories` list. -/
def validCategories : List String :=
  ["moderation", "utility", "entertainment", "automation", "analytics", "security"]

/-- The `validCategories.join(', ')` text used in the invalid-category warning. -/
def validCategoriesJoined : String := String.intercalate ", " validCategories

/-- The manifest check's `allowedDeps` list. -/
def allowedDeps : List String := ["discord.js", "axios", "lodash", "moment", "uuid"]

/-! ## Directory snapshots -/

/-- Outcome of reading and JSON-parsing one of the two JSON files.  `missing`
means `fs.access` fails (and a subsequent `fs.readFile` would throw with the
recorded message); `unreadable` means access succeeds but reading throws;
`invalid` means `JSON.parse` throws with the recorded message; `parsed` is a
successful parse. -/
inductive JsonFile (α : Type) where
  | missing (msg : String)
  | unreadable (msg : String)
  | invalid (msg : String)
  | parsed (val : α)
  deriving DecidableEq

/-- Outcome of reading a plain text file (the source entry file and the
README). -/
inductive TextFile where
  | missing (msg : String)
  | unreadable (msg : String)
  | content (text : String)
  deriving DecidableEq

/-- The `mercy-integration.json` record at the granularity the validator
observes: truthiness of `name`/`description`/`developer`, and the string
value (or absence/falsiness, as `none`) of `id`/`version`/`category`. -/
structure Config where
  id : Option String
  name : Bool
  version : Option String
  description : Bool
  category : Option String
  developer : Bool
  deriving DecidableEq

/-- The `package.json` record at the granularity the validator observes:
truthiness of `name` and `version`, whether `type === 'module'`, and the
keys of `dependencies` in insertion order (`none` for an absent or falsy
`dependencies` field). -/
structure Pkg where
  name : Bool
  version : Bool
  typeIsModule : Bool
  dependencies : Option (List String)
  deriving DecidableEq

/-- A snapshot of everything a validator run reads from the directory. -/
structure Dir where
  meta : JsonFile Config
  pkg : JsonFile Pkg
  source : TextFile
  readme : TextFile
  testDir : Bool
  deriving DecidableEq

/-- Whether `fs.access` succeeds for a JSON file. -/
def JsonFile.present : JsonFile α → Bool
  | .missing _ => false
  | _ => true

/-- Whether `fs.access` succeeds for a text file. -/
def TextFile.present : TextFile → Bool
  | .missing _ => false
  | _ => true

/-- Presence of each of the four required paths in the snapshot. -/
def filePresent (d : Dir) : String → Bool
  | "mercy-integration.json" => d.meta.present
  | "package.json" => d.pkg.present
  | "src/integration.js" => d.source.present
  | "README.md" => d.readme.present
  | _ => true

/-! ## The validator phases -/

/-- Errors, warnings and score deduction contributed by one piece of the
run.  Deductions are naturals because every score update in the source is a
subtraction of a positive constant. -/
structure PhaseOut where
  errs : List String
  warns : List String
  delta : Nat
  deriving DecidableEq

/-- The file-structure check: one error and `-20` per missing required file,
in `REQUIRED_FILES` order. -/
def requiredErrs (d : Dir) : List String :=
  (REQUIRED_FILES.filter (fun f => !filePresent d f)).map
    (fun f => "Missing required file: " ++ f)

/-- Score deduction of the file-structure check. -/
def requiredDelta (d : Dir) : Nat :=
  20 * (REQUIRED_FILES.filter (fun f => !filePresent d f)).length

/-- Errors accumulated after the file-structure check. -/
def errsAfterRequired (d : Dir) : List String := requiredErrs d

/-- The guard on the configuration check:
`results.errors.length === 0 || results.errors.every(e => !e.includes('mercy-integration.json'))`. -/
def guardMeta (d : Dir) : Bool :=
  (errsAfterRequired d).length == 0 ||
    (errsAfterRequired d).all (fun e => !(jsIncludes e "mercy-integration.json"))

/-- Falsiness of each required config field in the snapshot's record. -/
def configFieldMissing (c : Config) : String → Bool
  | "id" => c.id.isNone
  | "name" => !c.name
  | "version" => c.version.isNone
  | "description" => !c.description
  | "category" => c.category.isNone
  | "developer" => !c.developer
  | _ => false

/-- The version-format regex `^\d+\.\d+\.\d+$`. -/
def isSemver (s : String) : Bool :=
  match splitOnChar '.' s.data with
  | [a, b, c] => a.length > 0 && a.all Char.isDigit &&
      b.length > 0 && b.all Char.isDigit && c.length > 0 && c.all Char.isDigit
  | _ => false

/-- Membership in the id-format class `[a-z0-9-_]`. -/
def idCharOk (c : Char) : Bool :=
  ('a' ≤ c && c ≤ 'z') || ('0' ≤ c && c ≤ '9') || c = '-' || c = '_'

/-- The id-format regex `^[a-z0-9-_]+$`. -/
def idFormatOk (s : String) : Bool := s.data.length > 0 && s.data.all idCharOk

/-- The invalid-id error text. -/
def idErrStr : String :=
  "Invalid ID format, use lowercase letters, numbers, hyphens, and underscores only"

/-- The invalid-version warning text. -/
def versionWarnStr : String := "Invalid version format, use semantic versioning (x.y.z)"

/-- Body of the configuration check on a parsed record: missing-field errors
in field order, then the version-format, id-format and category checks. -/
def metaBody (cfg : Config) : PhaseOut :=
  let fieldErrs := (REQUIRED_CONFIG_FIELDS.filter (configFieldMissing cfg)).map
    (fun f => "Missing required config field: " ++ f)
  let verWarns := match cfg.version with
    | some v => if !isSemver v then [versionWarnStr] else []
    | none => []
  let idErrs := match cfg.id with
    | some i => if !idFormatOk i then [idErrStr] else []
    | none => []
  let catWarns := match cfg.category with
    | some c =>
      if !(validCategories.contains c) then
        ["Invalid category: " ++ c ++ ". Use one of: " ++ validCategoriesJoined]
      else []
    | none => []
  ⟨fieldErrs ++ idErrs, verWarns ++ catWarns,
    10 * fieldErrs.length + 5 * verWarns.length + 15 * idErrs.length + 5 * catWarns.length⟩

/-- The configuration check: guarded; a read or parse failure is caught and
becomes one error and `-25`. -/
def metaOut (d : Dir) : PhaseOut :=
  if guardMeta d then
    match d.meta with
    | .parsed cfg => metaBody cfg
    | .missing m => ⟨["Invalid mercy-integration.json: " ++ m], [], 25⟩
    | .unreadable m => ⟨["Invalid mercy-integration.json: " ++ m], [], 25⟩
    | .invalid m => ⟨["Invalid mercy-integration.json: " ++ m], [], 25⟩
  else ⟨[], [], 0⟩

/-- Errors accumulated after the configuration check. -/
def errsAfterMeta (d : Dir) : List String := errsAfterRequired d ++ (metaOut d).errs

/-- The guard on the `package.json` check. -/
def guardPkg (d : Dir) : Bool :=
  (errsAfterMeta d).length == 0 ||
    (errsAfterMeta d).all (fun e => !(jsIncludes e "package.json"))

/-- Body of the `package.json` check on a parsed record. -/
def pkgBody (p : Pkg) : PhaseOut :=
  let nameWarns := if !p.name then ["Missing package name"] else []
  let verWarns := if !p.version then ["Missing package version"] else []
  let typeWarns :=
    if !p.typeIsModule then ["Package should use ES modules (type: \x22module\x22)"] else []
  let depErrs := match p.dependencies with
    | some deps => (deps.filter (fun dep => !(allowedDeps.contains dep))).map
        (fun dep => "Unauthorized dependency: " ++ dep)
    | none => []
  ⟨depErrs, nameWarns ++ verWarns ++ typeWarns,
    5 * (nameWarns.length + verWarns.length + typeWarns.length) + 15 * depErrs.length⟩

/-- The `package.json` check: guarded; a read or parse failure becomes one
error and `-20`. -/
def pkgOut (d : Dir) : PhaseOut :=
  if guardPkg d then
    match d.pkg with
    | .parsed p => pkgBody p
    | .missing m => ⟨["Invalid package.json: " ++ m], [], 20⟩
    | .unreadable m => ⟨["Invalid package.json: " ++ m], [], 20⟩
    | .invalid m => ⟨["Invalid package.json: " ++ m], [], 20⟩
  else ⟨[], [], 0⟩

/-- Errors accumulated after the `package.json` check. -/
def errsAfterPkg (d : Dir) : List String := errsAfterMeta d ++ (pkgOut d).errs

/-- The guard on the source security scan:
`results.errors.length === 0 || results.errors.every(e => !e.includes('src/integration.js'))`. -/
def guardSrc (d : Dir) : Bool :=
  (errsAfterPkg d).length == 0 ||
    (errsAfterPkg d).all (fun e => !(jsIncludes e "src/integration.js"))

/-- Penalty of one firing security rule, following the severity branch
structure of the source (`critical` 30, `high` 20, otherwise 10). -/
def severityPenalty (sev : String) : Nat :=
  if sev == "critical" then 30 else if sev == "high" then 20 else 10

/-- Effect of one rule of the table on one source text: nothing when the
regex has no match; otherwise exactly one error (critical/high) or one
warning (otherwise) carrying the match count, and the severity's penalty. -/
def ruleOut (r : SecurityRule) (c : String) : PhaseOut :=
  let n := countMatches r.pattern c
  if n > 0 then
    if r.severity == "critical" then
      ⟨["CRITICAL: " ++ r.message ++ " (" ++ toString n ++ " instances)"], [], 30⟩
    else if r.severity == "high" then
      ⟨["HIGH: " ++ r.message ++ " (" ++ toString n ++ " instances)"], [], 20⟩
    else
      ⟨[], [jsToUpperCase r.severity ++ ": " ++ r.message ++ " (" ++ toString n ++
        " instances)"], 10⟩
  else ⟨[], [], 0⟩

/-- The security-rule loop over the whole table. -/
def secOut (c : String) : PhaseOut :=
  ⟨(SECURITY_PATTERNS.map (fun r => (ruleOut r c).errs)).flatten,
   (SECURITY_PATTERNS.map (fun r => (ruleOut r c).warns)).flatten,
   (SECURITY_PATTERNS.map (fun r => (ruleOut r c).delta)).sum⟩

/-- The missing default-export-class error text. -/
def exportErrStr : String := "Integration must export a default class"

/-- The missing `onLoad` warning text. -/
def onLoadWarnStr : String := "Integration should implement onLoad() method"

/-- The source scan body on a successfully read source text: the security
rules, the default-export-class check (`-25`), the `onLoad` marker check
(`-5`) and the complexity heuristic (`-10` above 1000). -/
def sourceScanOut (c : String) : PhaseOut :=
  let sec := secOut c
  let exportErrs := if !(jsIncludes c "export default class") then [exportErrStr] else []
  let loadWarns := if !(jsIncludes c "async onLoad()") then [onLoadWarnStr] else []
  let lines := jsSplitNlLen c
  let functions := countMatches funcPattern c
  let complexity := lines + functions * 2
  let cxWarns :=
    if complexity > 1000 then
      ["High code complexity: " ++ toString complexity ++ " (consider simplifying)"]
    else []
  ⟨sec.errs ++ exportErrs, sec.warns ++ loadWarns ++ cxWarns,
    sec.delta + 25 * exportErrs.length + 5 * loadWarns.length + 10 * cxWarns.length⟩

/-- The source security scan: guarded; a read failure becomes one error and
`-30`. -/
def srcOut (d : Dir) : PhaseOut :=
  if guardSrc d then
    match d.source with
    | .content c => sourceScanOut c
    | .missing m => ⟨["Cannot read integration code: " ++ m], [], 30⟩
    | .unreadable m => ⟨["Cannot read integration code: " ++ m], [], 30⟩
  else ⟨[], [], 0⟩

/-- The additional checks: short-README warning (`-5`; a missing or
unreadable README is only logged) and missing-test-directory warning (`-5`). -/
def auxOut (d : Dir) : PhaseOut :=
  let readmeWarns := match d.readme with
    | .content s =>
      if s.length < 100 then
        ["README.md is very short, consider adding more documentation"]
      else []
    | .missing _ => []
    | .unreadable _ => []
  let testWarns := if !d.testDir then ["No test directory found, consider adding tests"] else []
  ⟨[], readmeWarns ++ testWarns, 5 * readmeWarns.length + 5 * testWarns.length⟩

/-- The result record of a validator run. -/
structure VResult where
  errors : List String
  warnings : List String
  score : Int
  isValid : Bool
  deriving DecidableEq

/-- Final error list of a run, in phase order. -/
def errsFinal (d : Dir) : List String := errsAfterPkg d ++ (srcOut d).errs

/-- Final warning list of a run, in phase order. -/
def warnsFinal (d : Dir) : List String :=
  (metaOut d).warns ++ (pkgOut d).warns ++ (srcOut d).warns ++ (auxOut d).warns

/-- Final score of a run: 100 minus every deduction. -/
def finalScore (d : Dir) : Int :=
  100 - ((requiredDelta d + (metaOut d).delta + (pkgOut d).delta +
    (srcOut d).delta + (auxOut d).delta : Nat) : Int)

/-- The whole validator run (`validateIntegration`) as a function of the
directory snapshot, including the final verdict
`results.isValid = results.errors.length === 0 && results.score >= 70`. -/
def validate (d : Dir) : VResult :=
  { errors := errsFinal d
    warnings := warnsFinal d
    score := finalScore d
    isValid := (errsFinal d).length == 0 && decide (70 ≤ finalScore d) }
/-- Full text of `src/integration-template.js`, the template file the
standalone scaffolder copies into the new project, as one literal
(escapes: \x22 is the double quote, \x27 the apostrophe, \x60 the
backtick, \x7b and \x7d the braces). -/
def templateSource : String :=
  "import \x7b EmbedBuilder \x7d from \x27discord.js\x27;\n\n/**\n * M.E.R.C.Y Integration Template\n * \n * This is the base template for creating M.E.R.C.Y integrations.\n * Replace this template with your integration logic.\n * \n * IMPORTANT: Do not modify the export structure or class name.\n */\n\nexport default class IntegrationTemplate \x7b\n    constructor(config) \x7b\n        this.config = config;\n        this.client = null; // Will be injected by M.E.R.C.Y\n        this.guild = null; // Will be injected by M.E.R.C.Y\n        this.settings = new Map(); // Integration-specific settings\n        this.version = \x271.0.0\x27;\n    \x7d\n\n    /**\n     * Called when integration is loaded and activated\n     * Use this method for initialization logic\n     */\n    async onLoad() \x7b\n        console.log(\x60[$\x7bthis.config.name\x7d] Integration loaded successfully\x60);\n        \n        // Initialize integration settings\n        await this.loadSettings();\n        \n        // Perform any setup tasks\n        await this.initialize();\n        \n        return true;\n    \x7d\n\n    /**\n     * Called when integration is unloaded or disabled\n     * Use this method for cleanup tasks\n     */\n    async onUnload() \x7b\n        console.log(\x60[$\x7bthis.config.name\x7d] Integration unloaded\x60);\n        \n        // Clean up resources\n        await this.cleanup();\n        \n        return true;\n    \x7d\n\n    /**\n     * Initialize the integration\n     * Override this method with your initialization logic\n     */\n    async initialize() \x7b\n        // Example initialization\n        this.startTime = Date.now();\n        this.commandCount = 0;\n        this.eventCount = 0;\n    \x7d\n\n    /**\n     * Clean up resources\n     * Override this method with your cleanup logic\n     */\n    async cleanup() \x7b\n        // Example cleanup\n        this.commandCount = 0;\n        this.eventCount = 0;\n    \x7d\n\n    /**\n     * Load integration settings from database\n     */\n    async loadSettings() \x7b\n        try \x7b\n            const savedSettings = await this.getStoredSettings();\n            if (savedSettings) \x7b\n                this.settings = new Map(Object.entries(savedSettings));\n            \x7d else \x7b\n                // Load default settings from config\n                this.settings = new Map(Object.entries(this.config.defaultSettings || \x7b\x7d));\n            \x7d\n        \x7d catch (error) \x7b\n            console.error(\x60[$\x7bthis.config.name\x7d] Failed to load settings:\x60, error);\n            this.settings = new Map();\n        \x7d\n    \x7d\n\n    /**\n     * Save integration settings to database\n     */\n    async saveSettings() \x7b\n        try \x7b\n            const settingsObject = Object.fromEntries(this.settings);\n            await this.updateStoredSettings(settingsObject);\n        \x7d catch (error) \x7b\n            console.error(\x60[$\x7bthis.config.name\x7d] Failed to save settings:\x60, error);\n        \x7d\n    \x7d\n\n    /**\n     * Handle Discord message events\n     * Override this method to process messages\n     */\n    async onMessage(message) \x7b\n        // Example message handling\n        this.eventCount++;\n        \n        // Don\x27t process bot messages\n        if (message.author.bot) return;\n        \n        // Example: respond to mentions\n        if (message.mentions.has(this.client.user)) \x7b\n            await this.handleMention(message);\n        \x7d\n    \x7d\n\n    /**\n     * Handle member join events\n     * Override this method to process new members\n     */\n    async onMemberJoin(member) \x7b\n        this.eventCount++;\n        \n        // Example member join handling\n        const welcomeChannel = this.settings.get(\x27welcomeChannel\x27);\n        const welcomeMessage = this.settings.get(\x27welcomeMessage\x27) || \x27Welcome to the server!\x27;\n        \n        if (welcomeChannel) \x7b\n            const channel = this.guild.channels.cache.get(welcomeChannel);\n            if (channel) \x7b\n                await channel.send(\x7b\n                    content: welcomeMessage.replace(\x27\x7buser\x7d\x27, member.toString()),\n                    embeds: [this.createWelcomeEmbed(member)]\n                \x7d);\n            \x7d\n        \x7d\n    \x7d\n\n    /**\n     * Handle member leave events\n     * Override this method to process member departures\n     */\n    async onMemberLeave(member) \x7b\n        this.eventCount++;\n        \n        // Example member leave handling\n        console.log(\x60[$\x7bthis.config.name\x7d] Member left: $\x7bmember.user.tag\x7d\x60);\n    \x7d\n\n    /**\n     * Handle moderation actions\n     * Override this method to process moderation events\n     */\n    async onModerationAction(action) \x7b\n        this.eventCount++;\n        \n        // Example moderation action handling\n        console.log(\x60[$\x7bthis.config.name\x7d] Moderation action: $\x7baction.type\x7d by $\x7baction.moderator.tag\x7d on $\x7baction.target.tag\x7d\x60);\n    \x7d\n\n    /**\n     * Handle Discord interactions (slash commands, buttons, etc.)\n     * Override this method to process interactions\n     */\n    async onInteraction(interaction) \x7b\n        this.commandCount++;\n        \n        if (interaction.isChatInputCommand()) \x7b\n            await this.handleSlashCommand(interaction);\n        \x7d else if (interaction.isButton()) \x7b\n            await this.handleButton(interaction);\n        \x7d else if (interaction.isStringSelectMenu()) \x7b\n            await this.handleSelectMenu(interaction);\n        \x7d\n    \x7d\n\n    /**\n     * Handle slash commands\n     * Override this method to implement custom commands\n     */\n    async handleSlashCommand(interaction) \x7b\n        // Example command handling\n        if (interaction.commandName === \x27integration-stats\x27) \x7b\n            await this.sendStats(interaction);\n        \x7d\n    \x7d\n\n    /**\n     * Handle button interactions\n     * Override this method to implement button responses\n     */\n    async handleButton(interaction) \x7b\n        // Example button handling\n        console.log(\x60[$\x7bthis.config.name\x7d] Button pressed: $\x7binteraction.customId\x7d\x60);\n        await interaction.reply(\x7b content: \x27Button handled!\x27, ephemeral: true \x7d);\n    \x7d\n\n    /**\n     * Handle select menu interactions\n     * Override this method to implement select menu responses\n     */\n    async handleSelectMenu(interaction) \x7b\n        // Example select menu handling\n        console.log(\x60[$\x7bthis.config.name\x7d] Select menu: $\x7binteraction.customId\x7d, values: $\x7binteraction.values\x7d\x60);\n        await interaction.reply(\x7b content: \x27Selection processed!\x27, ephemeral: true \x7d);\n    \x7d\n\n    /**\n     * Handle mention responses\n     */\n    async handleMention(message) \x7b\n        const embed = new EmbedBuilder()\n            .setColor(\x27#6366f1\x27)\n            .setTitle(\x60$\x7bthis.config.name\x7d Integration\x60)\n            .setDescription(\x27This is an example response from a M.E.R.C.Y integration!\x27)\n            .addFields(\n                \x7b name: \x27Version\x27, value: this.version, inline: true \x7d,\n                \x7b name: \x27Uptime\x27, value: this.getUptime(), inline: true \x7d,\n                \x7b name: \x27Events Processed\x27, value: this.eventCount.toString(), inline: true \x7d\n            )\n            .setTimestamp();\n\n        await message.reply(\x7b embeds: [embed] \x7d);\n    \x7d\n\n    /**\n     * Send integration statistics\n     */\n    async sendStats(interaction) \x7b\n        const embed = new EmbedBuilder()\n            .setColor(\x27#10b981\x27)\n            .setTitle(\x60\u00f0\u0178\u201c\u0160 $\x7bthis.config.name\x7d Statistics\x60)\n            .addFields(\n                \x7b name: \x27Commands Executed\x27, value: this.commandCount.toString(), inline: true \x7d,\n                \x7b name: \x27Events Processed\x27, value: this.eventCount.toString(), inline: true \x7d,\n                \x7b name: \x27Uptime\x27, value: this.getUptime(), inline: true \x7d\n            )\n            .setFooter(\x7b text: \x27M.E.R.C.Y Integration Statistics\x27 \x7d)\n            .setTimestamp();\n\n        await interaction.reply(\x7b embeds: [embed], ephemeral: true \x7d);\n    \x7d\n\n    /**\n     * Create welcome embed for new members\n     */\n    createWelcomeEmbed(member) \x7b\n        return new EmbedBuilder()\n            .setColor(\x27#00ff00\x27)\n            .setTitle(\x27Welcome!\x27)\n            .setDescription(\x60Welcome to $\x7bthis.guild.name\x7d, $\x7bmember.user.tag\x7d!\x60)\n            .setThumbnail(member.user.displayAvatarURL())\n            .addFields(\n                \x7b name: \x27Member #\x27, value: this.guild.memberCount.toString(), inline: true \x7d,\n                \x7b name: \x27Account Created\x27, value: \x60<t:$\x7bMath.floor(member.user.createdTimestamp / 1000)\x7d:R>\x60, inline: true \x7d\n            )\n            .setTimestamp();\n    \x7d\n\n    /**\n     * Get integration uptime\n     */\n    getUptime() \x7b\n        const uptime = Date.now() - this.startTime;\n        const hours = Math.floor(uptime / (1000 * 60 * 60));\n        const minutes = Math.floor((uptime % (1000 * 60 * 60)) / (1000 * 60));\n        return \x60$\x7bhours\x7dh $\x7bminutes\x7dm\x60;\n    \x7d\n\n    /**\n     * Get setting value\n     */\n    getSetting(key, defaultValue = null) \x7b\n        return this.settings.get(key) || defaultValue;\n    \x7d\n\n    /**\n     * Set setting value\n     */\n    async setSetting(key, value) \x7b\n        this.settings.set(key, value);\n        await this.saveSettings();\n    \x7d\n\n    /**\n     * Log integration event\n     */\n    async logEvent(event, data = \x7b\x7d) \x7b\n        try \x7b\n            await this.createLogEntry(\x7b\n                integration: this.config.name,\n                event,\n                data,\n                timestamp: new Date(),\n                guild: this.guild.id\n            \x7d);\n        \x7d catch (error) \x7b\n            console.error(\x60[$\x7bthis.config.name\x7d] Failed to log event:\x60, error);\n        \x7d\n    \x7d\n\n    // ========================================\n    // M.E.R.C.Y API METHODS\n    // These methods are injected by the M.E.R.C.Y system\n    // Do not implement these - they will be overridden\n    // ========================================\n\n    /**\n     * Get stored settings from M.E.R.C.Y database\n     */\n    async getStoredSettings() \x7b\n        // Implemented by M.E.R.C.Y\n        throw new Error(\x27Method must be implemented by M.E.R.C.Y system\x27);\n    \x7d\n\n    /**\n     * Update stored settings in M.E.R.C.Y database\n     */\n    async updateStoredSettings(settings) \x7b\n        // Implemented by M.E.R.C.Y\n        throw new Error(\x27Method must be implemented by M.E.R.C.Y system\x27);\n    \x7d\n\n    /**\n     * Create log entry in M.E.R.C.Y system\n     */\n    async createLogEntry(entry) \x7b\n        // Implemented by M.E.R.C.Y\n        throw new Error(\x27Method must be implemented by M.E.R.C.Y system\x27);\n    \x7d\n\n    /**\n     * Send webhook notification\n     */\n    async sendWebhook(webhookUrl, data) \x7b\n        // Implemented by M.E.R.C.Y\n        throw new Error(\x27Method must be implemented by M.E.R.C.Y system\x27);\n    \x7d\n\n    /**\n     * Get server configuration\n     */\n    async getServerConfig() \x7b\n        // Implemented by M.E.R.C.Y\n        throw new Error(\x27Method must be implemented by M.E.R.C.Y system\x27);\n    \x7d\n\n    /**\n     * Check user permissions\n     */\n    async checkPermissions(userId, permissions) \x7b\n        // Implemented by M.E.R.C.Y\n        throw new Error(\x27Method must be implemented by M.E.R.C.Y system\x27);\n    \x7d\n\x7d"

/-- Variant (b): the integration source file emitted literally by the
consolidated `mercy.js` `initIntegration` (its `integrationCode` template
literal, with the three interpolated expressions as parameters). -/
def variantB (name description : String) : String :=
    "import \x7b IntegrationTemplate \x7d from \x27../mercy.js\x27;\n" ++
    "\n" ++
    "/**\n" ++
    " * " ++
    name ++
    " Integration\n" ++
    " * " ++
    description ++
    "\n" ++
    " */\n" ++
    "export default class " ++
    toPascalCase name ++
    " extends IntegrationTemplate \x7b\n" ++
    "    constructor(config) \x7b\n" ++
    "        super(config);\n" ++
    "    \x7d\n" ++
    "\n" ++
    "    async initialize() \x7b\n" ++
    "        await super.initialize();\n" ++
    "        \n" ++
    "        // Add your initialization logic here\n" ++
    "        console.log(\x27[" ++
    name ++
    "] Initialized successfully\x27);\n" ++
    "    \x7d\n" ++
    "\n" ++
    "    async onMessage(message) \x7b\n" ++
    "        await super.onMessage(message);\n" ++
    "        \n" ++
    "        // Add your message handling logic here\n" ++
    "    \x7d\n" ++
    "\n" ++
    "    async onMemberJoin(member) \x7b\n" ++
    "        await super.onMemberJoin(member);\n" ++
    "        \n" ++
    "        // Add your member join logic here\n" ++
    "    \x7d\n" ++
    "\n" ++
    "    // Override other methods as needed\n" ++
    "\x7d\n"

/-- Variant (a): the integration source file produced by the standalone
scaffolder (`init-integration.js` lines 139-147): the template file's text
with every occurrence of `IntegrationTemplate` replaced by the PascalCase
name and every occurrence of `this.config.name` replaced by the quoted
name. -/
def variantA (name : String) : String :=
  jsReplaceAll (jsReplaceAll templateSource "IntegrationTemplate" (toPascalCase name))
    "this.config.name" ("\x22" ++ name ++ "\x22")

/-! ## The base class settings accessor -/

/-- JavaScript values at the granularity `getSetting` observes (`NaN` and
objects are omitted: stored settings are JSON-shaped primitives). -/
inductive JSVal where
  | undefined
  | null
  | bool (b : Bool)
  | num (n : Int)
  | str (s : String)
  deriving DecidableEq

/-- JavaScript truthiness of a value. -/
def JSVal.truthy : JSVal → Bool
  | .undefined => false
  | .null => false
  | .bool b => b
  | .num n => n != 0
  | .str s => s.length != 0

/-- A `Map` of settings as an association list (first binding wins, like the
most recent `set` in a JavaScript `Map` after deduplication); `get` returns
`undefined` for an absent key. -/
def settingsGet (m : List (String × JSVal)) (key : String) : JSVal :=
  match m.find? (fun p => p.1 == key) with
  | some p => p.2
  | none => .undefined

/-- The base class accessor `getSetting(key, defaultValue = null)`
(`integration-template.js` lines 274-276):
`return this.settings.get(key) || defaultValue;`. -/
def getSetting (m : List (String × JSVal)) (key : String) (defaultValue : JSVal) : JSVal :=
  let v := settingsGet m key
  if v.truthy then v else defaultValue

/-! ## Concrete snapshots used by witnesses and counterexamples -/

/-- A source text firing fourteen of the fifteen security rules at once. -/
def nastySource : String :=
  "require(\x27child_process\x27)\nprocess.env eval( new Function( x.exec( x.spawn( " ++
  "fs.writeFile fs.unlink fs.rmdir require(\x27fs\x27) setTimeout(\x27x\x27, " ++
  "setInterval(\x27x\x27, while(true) for(;;)"

/-- A metadata record with every required field present and well formed. -/
def fullConfig : Config :=
  { id := some "my-int", name := true, version := some "1.0.0",
    description := true, category := some "utility", developer := true }

/-- A manifest record that passes every manifest check. -/
def goodPkg : Pkg :=
  { name := true, version := true, typeIsModule := true,
    dependencies := some ["discord.js", "axios"] }

/-- A clean source text: default-export-class marker, `onLoad` marker, no
security matches. -/
def goodSource : String :=
  "export default class X \x7b async onLoad() \x7b\x7d \x7d"

/-- A README longer than 100 characters. -/
def longReadme : String :=
  "This is a sufficiently long readme file for the integration. " ++
  "It documents the integration thoroughly, in detail."

/-- A snapshot whose run ends with a negative score. -/
def dirNeg : Dir :=
  { meta := .parsed fullConfig, pkg := .parsed goodPkg,
    source := .content nastySource, readme := .content longReadme, testDir := true }

/-- A snapshot that passes every check. -/
def dirFull : Dir :=
  { meta := .parsed fullConfig, pkg := .parsed goodPkg,
    source := .content goodSource, readme := .content longReadme, testDir := true }

/-- The same snapshot with the `category` field absent from the metadata. -/
def dirNoCat : Dir :=
  { dirFull with meta := .parsed { fullConfig with category := none } }

/-- A snapshot whose manifest declares a dependency literally named
`src/integration.js`, while the source file is present and contains a
critical pattern. -/
def dirDepTrick : Dir :=
  { meta := .parsed fullConfig,
    pkg := .parsed (Pkg.mk true true true (some ["src/integration.js"])),
    source := .content "process.env", readme := .content longReadme, testDir := true }

/-- The `process.env` rule of the table, for witness instantiation. -/
def procEnvRule : SecurityRule :=
  { pattern := [lits "process.env"], severity := "critical",
    message := "Environment variable access forbidden" }

/-- No rule of the security table matches the given source text (one
evaluable scan per rule). -/
def noSecurityMatch (c : String) : Bool :=
  SECURITY_PATTERNS.all (fun r => !(hasMatchChars r.pattern c.data))

/-- A snapshot identical to `dirFull` except that the source file is missing. -/
def dirNoSrc : Dir :=
  { dirFull with source := .missing "ENOENT: no such file or directory" }

/-- A snapshot whose metadata id is the scaffolder's derived default id. -/
def dirDerived : Dir :=
  { dirFull with meta := .parsed { fullConfig with id := some (derivedId "My Bot") } }

/-- Spec-side description of the PascalCase tokenisation: split the character
list at every non-alphanumeric character directly (the source instead first
replaces those characters by spaces and then splits on spaces). -/
def splitOnNonAlnum : List Char → List (List Char)
  | [] => [[]]
  | x :: s =>
    if x.isAlphanum then
      match splitOnNonAlnum s with
      | [] => [[x]]
      | w :: ws => (x :: w) :: ws
    else [] :: splitOnNonAlnum s

/-! ## Helper lemmas -/

/-- A list is a prefix of itself followed by anything. -/
theorem prefixChars_append (p m : List Char) : prefixChars p (p ++ m) = true := by
  induction p with
  | nil => rfl
  | cons a as ih => simp [prefixChars, ih]

/-- Strings with a prefix that the target lacks are different from it. -/
theorem append_ne_of_not_prefixChars (p m t : String)
    (h : prefixChars p.data t.data = false) : p ++ m ≠ t := by
  intro he
  have hd : t.data = p.data ++ m.data := by
    cases p with
    | mk pd =>
      cases m with
      | mk md => rw [← he]; rfl
  rw [hd, prefixChars_append] at h
  exact Bool.noConfusion h

/-- The `errors.length === 0 ||` disjunct of the phase guards is redundant:
an empty list satisfies `every` vacuously. -/
theorem guard_eq_all (l : List String) (p : String → Bool) :
    (((l.length == 0 : Bool)) || l.all p) = l.all p := by
  cases l with
  | nil => rfl
  | cons a l => simp

/-- A member on which the predicate fails refutes `List.all`. -/
theorem all_eq_false_of_mem {l : List String} {e : String} {p : String → Bool}
    (hm : e ∈ l) (hp : p e = false) : l.all p = false := by
  rw [Bool.eq_false_iff]
  intro hall
  rw [List.all_eq_true] at hall
  have := hall e hm
  rw [hp] at this
  exact Bool.false_ne_true this

/-- Every rule of the table carries one of the three severity names. -/
theorem security_severities :
    ∀ r ∈ SECURITY_PATTERNS,
      r.severity = "critical" ∨ r.severity = "high" ∨ r.severity = "medium" := by
  decide

/-- Every warning the security loop emits starts with `MEDIUM`. -/
theorem secOut_warns_shape (c : String) (e : String) (hm : e ∈ (secOut c).warns) :
    ∃ m, e = "MEDIUM" ++ m := by
  simp only [secOut, List.mem_flatten, List.mem_map] at hm
  obtain ⟨_, ⟨r, hr, rfl⟩, he⟩ := hm
  unfold ruleOut at he
  by_cases hn : countMatches r.pattern c > 0
  · simp only [hn, if_true] at he
    by_cases hc : r.severity == "critical"
    · simp [hc] at he
    · by_cases hh : r.severity == "high"
      · simp [hc, hh] at he
      · simp only [hc, hh, Bool.false_eq_true, if_false, List.mem_singleton] at he
        have hsev : r.severity = "medium" := by
          rcases security_severities r hr with h | h | h
          · rw [h] at hc; simp at hc
          · rw [h] at hh; simp at hh
          · exact h
        subst he
        rw [hsev]
        exact ⟨": " ++ r.message ++ " (" ++ toString (countMatches r.pattern c) ++
          " instances)", rfl⟩
  · simp [hn] at he

/-- Every error the security loop emits starts with `CRITICAL: ` or
`HIGH: `. -/
theorem secOut_errs_shape (c : String) (e : String) (hm : e ∈ (secOut c).errs) :
    (∃ m, e = "CRITICAL: " ++ m) ∨ (∃ m, e = "HIGH: " ++ m) := by
  simp only [secOut, List.mem_flatten, List.mem_map] at hm
  obtain ⟨_, ⟨r, hr, rfl⟩, he⟩ := hm
  unfold ruleOut at he
  by_cases hn : countMatches r.pattern c > 0
  · simp only [hn, if_true] at he
    by_cases hc : r.severity == "critical"
    · simp only [hc, if_true, List.mem_singleton] at he
      subst he
      exact Or.inl ⟨_, rfl⟩
    · by_cases hh : r.severity == "high"
      · simp only [hc, hh, Bool.false_eq_true, if_false, if_true, List.mem_singleton] at he
        subst he
        exact Or.inr ⟨_, rfl⟩
      · simp [hc, hh] at he
  · simp [hn] at he

/-- If the source text contains the `onLoad` marker, its scan never emits
the `onLoad` warning. -/
theorem onLoad_warn_not_mem (c : String)
    (hc : jsIncludes c "async onLoad()" = true) :
    onLoadWarnStr ∉ (sourceScanOut c).warns := by
  intro hm
  simp only [sourceScanOut, hc, Bool.not_true, Bool.false_eq_true, if_false,
    List.append_nil, List.nil_append, List.mem_append] at hm
  rcases hm with hm | hm
  · obtain ⟨m, hmm⟩ := secOut_warns_shape c _ hm
    exact append_ne_of_not_prefixChars "MEDIUM" m onLoadWarnStr (by decide) hmm.symm
  · split at hm
    · simp only [List.mem_singleton] at hm
      exact append_ne_of_not_prefixChars "High code complexity: " _ onLoadWarnStr
        (by decide) hm.symm
    · simp at hm

/-! ## Claim theorems -/

/-- C1: for every validator run, `isValid = (errors.length == 0) AND
(score >= 70)`; the score is never floored at 0 and may end negative; and
with at least one error appended, `isValid` is false regardless of the
score. -/
theorem claim_C1_final_verdict :
    (∀ d : Dir, (validate d).isValid =
      (((validate d).errors.length == 0) && decide (70 ≤ (validate d).score))) ∧
    (∃ d : Dir, (validate d).score < 0) ∧
    (∀ d : Dir, (validate d).errors ≠ [] → (validate d).isValid = false) := by
  refine ⟨fun d => rfl, ⟨dirNeg, by decide⟩, fun d he => ?_⟩
  have hlen : (((validate d).errors.length == 0)) = false := by
    cases h : (validate d).errors with
    | nil => exact absurd h he
    | cons a l => simp [h]
  show (((validate d).errors.length == 0) && decide (70 ≤ (validate d).score)) = false
  rw [hlen, Bool.false_and]

/-- C1 witness: the all-errors snapshot ends invalid. -/
theorem claim_C1_witness : (validate dirNeg).isValid = false :=
  claim_C1_final_verdict.2.2 dirNeg (by decide)

/-- C3: the validator is deterministic: equal directory snapshots (same file
contents, same parse outcomes) give identical errors, warnings and score;
in this embedding a run is a pure function of the snapshot. -/
theorem claim_C3_deterministic :
    ∀ d₁ d₂ : Dir, d₁ = d₂ →
      (validate d₁).errors = (validate d₂).errors ∧
      (validate d₁).warnings = (validate d₂).warnings ∧
      (validate d₁).score = (validate d₂).score := by
  intro d₁ d₂ h
  rw [h]
  exact ⟨rfl, rfl, rfl⟩

/-- C3 witness: instantiated at the passing snapshot. -/
theorem claim_C3_witness :
    (validate dirFull).errors = (validate dirFull).errors ∧
    (validate dirFull).warnings = (validate dirFull).warnings ∧
    (validate dirFull).score = (validate dirFull).score :=
  claim_C3_deterministic dirFull dirFull rfl

/-- C8: the result invariant: the final error and warning lists are the
concatenations of the per-phase contributions in phase order (append-only),
and the score is 100 minus a sum of natural-number deductions, hence at
most 100 for every snapshot. -/
theorem claim_C8_score_invariant :
    ∀ d : Dir,
      (validate d).errors =
        requiredErrs d ++ (metaOut d).errs ++ (pkgOut d).errs ++ (srcOut d).errs ∧
      (validate d).warnings =
        (metaOut d).warns ++ (pkgOut d).warns ++ (srcOut d).warns ++ (auxOut d).warns ∧
      (validate d).score =
        100 - ((requiredDelta d : Int) + (metaOut d).delta + (pkgOut d).delta +
          (srcOut d).delta + (auxOut d).delta) ∧
      (validate d).score ≤ 100 := by
  intro d
  refine ⟨by simp [validate, errsFinal, errsAfterPkg, errsAfterMeta, errsAfterRequired],
    rfl, ?_, ?_⟩
  · show finalScore d = _
    unfold finalScore
    push_cast
    ring
  · show finalScore d ≤ 100
    unfold finalScore
    omega

/-- C9: `getSetting` returns the default whenever the stored value is falsy
(absent key, `false`, `0`, the empty string, `null`); a stored `false` is
indistinguishable from an unset key through this accessor. -/
theorem claim_C9_getSetting_falsy :
    (∀ (m : List (String × JSVal)) (k : String) (dv : JSVal),
      (settingsGet m k).truthy = false → getSetting m k dv = dv) ∧
    (∀ (k : String) (dv : JSVal) (m : List (String × JSVal)),
      getSetting ((k, JSVal.bool false) :: m) k dv = getSetting [] k dv) ∧
    (∀ (k : String) (dv : JSVal),
      getSetting [(k, JSVal.num 0)] k dv = dv ∧
      getSetting [(k, JSVal.str "")] k dv = dv ∧
      getSetting [(k, JSVal.null)] k dv = dv) := by
  refine ⟨fun m k dv h => ?_, fun k dv m => ?_, fun k dv => ?_⟩
  · simp [getSetting, h]
  · simp [getSetting, settingsGet, JSVal.truthy]
  · refine ⟨?_, ?_, ?_⟩ <;> simp [getSetting, settingsGet, JSVal.truthy]

/-- C9 witness: a stored boolean `false` yields the default. -/
theorem claim_C9_witness :
    getSetting [("enabled", JSVal.bool false)] "enabled" (JSVal.str "dflt") =
      JSVal.str "dflt" :=
  claim_C9_getSetting_falsy.1 [("enabled", JSVal.bool false)] "enabled"
    (JSVal.str "dflt") (by decide)

/-- C2: the security table has 15 rules, and for every rule and source text
a rule with no match contributes nothing, while a rule with any positive
number of matches contributes exactly one entry (an error for critical and
high, a warning otherwise) and a fixed penalty (30/20/10) that does not
depend on the number of matches. -/
theorem claim_C2_per_rule_penalty :
    SECURITY_PATTERNS.length = 15 ∧
    ∀ r ∈ SECURITY_PATTERNS, ∀ c : String,
      (countMatches r.pattern c = 0 → ruleOut r c = ⟨[], [], 0⟩) ∧
      (0 < countMatches r.pattern c →
        (ruleOut r c).errs.length + (ruleOut r c).warns.length = 1 ∧
        (ruleOut r c).delta = severityPenalty r.severity ∧
        (r.severity = "critical" →
          ruleOut r c = ⟨["CRITICAL: " ++ r.message ++ " (" ++
            toString (countMatches r.pattern c) ++ " instances)"], [], 30⟩) ∧
        (r.severity = "high" →
          ruleOut r c = ⟨["HIGH: " ++ r.message ++ " (" ++
            toString (countMatches r.pattern c) ++ " instances)"], [], 20⟩) ∧
        (r.severity = "medium" →
          ruleOut r c = ⟨[], ["MEDIUM: " ++ r.message ++ " (" ++
            toString (countMatches r.pattern c) ++ " instances)"], 10⟩)) ∧
      (∀ c' : String, 0 < countMatches r.pattern c → 0 < countMatches r.pattern c' →
        (ruleOut r c).delta = (ruleOut r c').delta) := by
  refine ⟨rfl, ?_⟩
  intro r hr c
  have hassoc : ∀ X : String, jsToUpperCase "medium" ++ ": " ++ X = "MEDIUM: " ++ X :=
    fun X => rfl
  refine ⟨fun h0 => by simp [ruleOut, h0], fun hp => ?_, fun c' hp hp' => ?_⟩
  · rcases security_severities r hr with hs | hs | hs <;>
      simp [ruleOut, hp, hs, severityPenalty, hassoc]
  · rcases security_severities r hr with hs | hs | hs <;>
      simp [ruleOut, hp, hp', hs]

/-- C2 witness: the `process.env` rule fired once on a text containing it
once costs 30 and contributes one critical error. -/
theorem claim_C2_witness :
    ruleOut procEnvRule "process.env" =
      ⟨["CRITICAL: Environment variable access forbidden (1 instances)"], [], 30⟩ :=
  (((claim_C2_per_rule_penalty.2 procEnvRule (by decide) "process.env").2.1
    (by decide)).2.2.1 rfl).trans (by decide)

/-- C5 counterexample: a manifest dependency literally named
`src/integration.js` makes the source scan be skipped although the source
file is present and its text matches a critical rule once. -/
theorem claim_C5_counterexample :
    guardSrc dirDepTrick = false ∧
    filePresent dirDepTrick "src/integration.js" = true ∧
    countMatches procEnvRule.pattern "process.env" = 1 ∧
    (validate dirDepTrick).errors = ["Unauthorized dependency: src/integration.js"] := by
  decide

/-- C5 amended: the scan is skipped exactly when some error accumulated
before it mentions `src/integration.js` as a substring; a missing source
file implies this, but so do other outcomes, such as an unauthorized
dependency with that name. -/
theorem claim_C5_guard_characterisation :
    (∀ d : Dir, filePresent d "src/integration.js" = false → guardSrc d = false) ∧
    (∀ d : Dir, (guardSrc d = false ↔
      ∃ e ∈ errsAfterPkg d, jsIncludes e "src/integration.js" = true)) := by
  have hall : ∀ (l : List String),
      ((l.all (fun e => !(jsIncludes e "src/integration.js"))) = false) ↔
        ∃ e ∈ l, jsIncludes e "src/integration.js" = true := by
    intro l
    induction l with
    | nil => simp
    | cons a l ih =>
      cases hja : jsIncludes a "src/integration.js" <;>
        simp [List.all_cons, hja, ih]
  have hch : ∀ d : Dir, (guardSrc d = false ↔
      ∃ e ∈ errsAfterPkg d, jsIncludes e "src/integration.js" = true) := by
    intro d
    rw [guardSrc, guard_eq_all]
    exact hall (errsAfterPkg d)
  refine ⟨?_, hch⟩
  intro d hmiss
  rw [hch d]
  refine ⟨"Missing required file: src/integration.js", ?_, by decide⟩
  have hmem : "Missing required file: src/integration.js" ∈ requiredErrs d := by
    unfold requiredErrs
    rw [List.mem_map]
    refine ⟨"src/integration.js", ?_, rfl⟩
    rw [List.mem_filter]
    refine ⟨by simp [REQUIRED_FILES], ?_⟩
    rw [show filePresent d "src/integration.js" = d.source.present from rfl]
    rw [show d.source.present = filePresent d "src/integration.js" from rfl, hmiss]
    rfl
  exact List.mem_append_left _ (List.mem_append_left _ hmem)

/-- C5 witness: a snapshot with the source file missing has the scan
skipped. -/
theorem claim_C5_witness : guardSrc dirNoSrc = false :=
  claim_C5_guard_characterisation.1 dirNoSrc (by decide)

/-- Variant (a) instantiated at the name `Test` keeps the template's
`onLoad` marker. -/
theorem variantA_onLoad : jsIncludes (variantA "Test") "async onLoad()" = true := by
  decide

/-- Variant (b) instantiated at the name `Test` scans to exactly one
warning, the `onLoad` one, and a 5-point deduction. -/
theorem variantB_scan :
    sourceScanOut (variantB "Test" "A test integration") =
      ⟨[], [onLoadWarnStr], 5⟩ := by
  decide

/-- C6 counterexample: the two scaffolder variants are not observationally
equivalent to the source scan: at the concrete name `Test` the scans of the
two generated files differ. -/
theorem claim_C6_counterexample :
    sourceScanOut (variantA "Test") ≠
      sourceScanOut (variantB "Test" "A test integration") := by
  intro h
  have hA := onLoad_warn_not_mem (variantA "Test") variantA_onLoad
  rw [h, variantB_scan] at hA
  simp at hA

/-- C6 amended: both variants keep the default-export-class marker, but
only variant (a) keeps the `onLoad` marker; at the name `Test`, variant
(b)'s scan emits exactly the `onLoad` warning with a 5-point deduction and
no errors, while variant (a)'s scan never contains that warning — so the
two generated files are not observationally equivalent to the scan. -/
theorem claim_C6_not_equivalent :
    jsIncludes (variantA "Test") "export default class" = true ∧
    jsIncludes (variantA "Test") "async onLoad()" = true ∧
    jsIncludes (variantB "Test" "A test integration") "export default class" = true ∧
    jsIncludes (variantB "Test" "A test integration") "async onLoad()" = false ∧
    sourceScanOut (variantB "Test" "A test integration") = ⟨[], [onLoadWarnStr], 5⟩ ∧
    onLoadWarnStr ∉ (sourceScanOut (variantA "Test")).warns :=
  ⟨by decide, variantA_onLoad, by decide, by decide, variantB_scan,
    onLoad_warn_not_mem _ variantA_onLoad⟩

/-- The source's replace-then-split tokenisation coincides with splitting
at non-alphanumeric characters directly. -/
theorem splitOnChar_map_eq (l : List Char) :
    splitOnChar ' ' (l.map fun c => if c.isAlphanum then c else ' ') =
      splitOnNonAlnum l := by
  induction l with
  | nil => rfl
  | cons x s ih =>
    by_cases hP : x.isAlphanum = true
    · have hx : (x = ' ') = False := by
        simp only [eq_iff_iff, iff_false]
        intro hxe
        subst hxe
        exact Bool.noConfusion hP
      simp only [List.map_cons, hP, if_true, splitOnChar, splitOnNonAlnum, hx, if_false, ih]
    · have hP' : x.isAlphanum = false := by
        cases h : x.isAlphanum
        · rfl
        · exact absurd h hP
      simp only [List.map_cons, hP', Bool.false_eq_true, if_false, splitOnChar,
        splitOnNonAlnum, ih]
      simp

/-- C7: the PascalCase transform maps the examples as specified, and on
every input it equals the spec's description: split at non-alphanumeric
characters, drop empty tokens, capitalise each token (first character
upper-cased, rest lower-cased) and concatenate. -/
theorem claim_C7_toPascalCase :
    toPascalCase "cool bot-2" = "CoolBot2" ∧
    toPascalCase "  " = "" ∧
    ∀ s : String, toPascalCase s =
      ⟨(((splitOnNonAlnum s.data).filter (fun w => w.length > 0)).map
        jsCapitalize).flatten⟩ := by
  refine ⟨by decide, by decide, fun s => ?_⟩
  show (⟨(((splitOnChar ' ' (s.data.map fun c => if c.isAlphanum then c else ' ')).filter
    (fun w => w.length > 0)).map jsCapitalize).flatten⟩ : String) = _
  rw [splitOnChar_map_eq]

/-- Each character produced by the derived-id replacement is in the
validator's id character class. -/
theorem derivedId_char_ok (y : Char) :
    idCharOk (if ('a' ≤ y && y ≤ 'z') || ('0' ≤ y && y ≤ '9') then y else '-') = true := by
  cases h : (('a' ≤ y && y ≤ 'z') || ('0' ≤ y && y ≤ '9')) with
  | false => simp [h, idCharOk]
  | true => simp [h, idCharOk]

/-- Unfolded error-list decomposition of a run, matching the phase order. -/
theorem errors_decomposition (d : Dir) :
    (validate d).errors =
      requiredErrs d ++ (metaOut d).errs ++ (pkgOut d).errs ++ (srcOut d).errs := by
  simp [validate, errsFinal, errsAfterPkg, errsAfterMeta, errsAfterRequired]

/-- The invalid-id error can only arise from the id-format check: with a
parsed metadata record whose `id` passes the format check, the error never
appears in the final error list. -/
theorem idErr_not_mem (d : Dir) (cfg : Config) (hm : d.meta = JsonFile.parsed cfg)
    (i : String) (hci : cfg.id = some i) (hfo : idFormatOk i = true) :
    idErrStr ∉ (validate d).errors := by
  intro hmem
  rw [errors_decomposition] at hmem
  simp only [List.mem_append] at hmem
  rcases hmem with ((hb | hb) | hb) | hb
  · unfold requiredErrs at hb
    rw [List.mem_map] at hb
    obtain ⟨f, _, hf⟩ := hb
    exact append_ne_of_not_prefixChars "Missing required file: " f idErrStr (by decide) hf
  · unfold metaOut at hb
    split at hb
    · rw [hm] at hb
      simp only [metaBody, List.mem_append] at hb
      rcases hb with hb | hb
      · rw [List.mem_map] at hb
        obtain ⟨f, _, hf⟩ := hb
        exact append_ne_of_not_prefixChars "Missing required config field: " f idErrStr
          (by decide) hf
      · rw [hci] at hb
        simp [hfo] at hb
    · simp at hb
  · unfold pkgOut at hb
    split at hb
    · cases hp : d.pkg with
      | parsed p =>
        rw [hp] at hb
        simp only [pkgBody] at hb
        cases hdep : p.dependencies with
        | some deps =>
          rw [hdep] at hb
          simp only [List.mem_map] at hb
          obtain ⟨dep, _, hf⟩ := hb
          exact append_ne_of_not_prefixChars "Unauthorized dependency: " dep idErrStr
            (by decide) hf
        | none =>
          rw [hdep] at hb
          simp at hb
      | missing m =>
        rw [hp] at hb
        simp only [List.mem_singleton] at hb
        exact append_ne_of_not_prefixChars "Invalid package.json: " m idErrStr
          (by decide) hb.symm
      | unreadable m =>
        rw [hp] at hb
        simp only [List.mem_singleton] at hb
        exact append_ne_of_not_prefixChars "Invalid package.json: " m idErrStr
          (by decide) hb.symm
      | invalid m =>
        rw [hp] at hb
        simp only [List.mem_singleton] at hb
        exact append_ne_of_not_prefixChars "Invalid package.json: " m idErrStr
          (by decide) hb.symm
    · simp at hb
  · unfold srcOut at hb
    split at hb
    · cases hs : d.source with
      | content c =>
        rw [hs] at hb
        simp only [sourceScanOut, List.mem_append] at hb
        rcases hb with hb | hb
        · rcases secOut_errs_shape c _ hb with ⟨m, hf⟩ | ⟨m, hf⟩
          · exact append_ne_of_not_prefixChars "CRITICAL: " m idErrStr (by decide) hf.symm
          · exact append_ne_of_not_prefixChars "HIGH: " m idErrStr (by decide) hf.symm
        · split at hb
          · simp only [List.mem_singleton] at hb
            exact absurd hb (by decide)
          · simp at hb
      | missing m =>
        rw [hs] at hb
        simp only [List.mem_singleton] at hb
        exact append_ne_of_not_prefixChars "Cannot read integration code: " m idErrStr
          (by decide) hb.symm
      | unreadable m =>
        rw [hs] at hb
        simp only [List.mem_singleton] at hb
        exact append_ne_of_not_prefixChars "Cannot read integration code: " m idErrStr
          (by decide) hb.symm
    · simp at hb

/-- C10: for every non-empty name, the scaffolder's derived default id is
non-empty and matches the validator's id-format regex, and a parsed
metadata record using it never receives the invalid-id error. -/
theorem claim_C10_derived_id :
    ∀ name : String, name ≠ "" →
      derivedId name ≠ "" ∧
      idFormatOk (derivedId name) = true ∧
      ∀ (d : Dir) (cfg : Config), d.meta = JsonFile.parsed cfg →
        cfg.id = some (derivedId name) →
        idErrStr ∉ (validate d).errors := by
  intro name hname
  have hdata : name.data ≠ [] := by
    intro hd
    apply hname
    cases name with
    | mk d => exact congrArg String.mk hd
  have hlen : (derivedId name).data.length = name.data.length := by
    simp [derivedId, jsToLowerCase]
  have hfo : idFormatOk (derivedId name) = true := by
    unfold idFormatOk
    have h1 : (derivedId name).data.length > 0 := by
      rw [hlen]
      exact List.length_pos.mpr hdata
    have h2 : (derivedId name).data.all idCharOk = true := by
      simp only [derivedId, jsToLowerCase, List.all_map, List.all_eq_true]
      intro y _
      exact derivedId_char_ok (Char.toLower y)
    show (decide ((derivedId name).data.length > 0) &&
      (derivedId name).data.all idCharOk) = true
    rw [h2, Bool.and_true, decide_eq_true_eq]
    exact h1
  refine ⟨?_, hfo, fun d cfg hm hci => idErr_not_mem d cfg hm (derivedId name) hci hfo⟩
  intro he
  rw [he] at hlen
  exact hdata (List.length_eq_zero.mp hlen.symm)

/-- C10 witness: instantiated at the name `My Bot` and a snapshot using the
derived id. -/
theorem claim_C10_witness :
    idFormatOk (derivedId "My Bot") = true ∧
    idErrStr ∉ (validate dirDerived).errors :=
  ⟨(claim_C10_derived_id "My Bot" (by decide)).2.1,
    (claim_C10_derived_id "My Bot" (by decide)).2.2 dirDerived
      { fullConfig with id := some (derivedId "My Bot") } rfl rfl⟩

/-- Decomposition of the configuration-check body: relative to the same
record with a valid category present, the category-less record contributes
the extra missing-field error in field order and 10 more points of
deduction, with identical warnings. -/
theorem metaBody_decomp (cfg : Config) (cat : String) (hcat : cfg.category = none)
    (hvalid : validCategories.contains cat = true) :
    ∃ (A B W : List String) (Dn : Nat),
      metaBody { cfg with category := some cat } = ⟨A ++ B, W, Dn⟩ ∧
      metaBody cfg = ⟨A ++ "Missing required config field: category" :: B, W, Dn + 10⟩ := by
  have hsplit : REQUIRED_CONFIG_FIELDS =
      ["id", "name", "version", "description"] ++ ["category"] ++ ["developer"] := rfl
  have hcfgL1 : List.filter (configFieldMissing { cfg with category := some cat })
      ["id", "name", "version", "description"] =
      List.filter (configFieldMissing cfg) ["id", "name", "version", "description"] := by
    apply List.filter_congr
    intro x hx
    fin_cases hx <;> rfl
  have hcfgL2 : List.filter (configFieldMissing { cfg with category := some cat })
      ["developer"] = List.filter (configFieldMissing cfg) ["developer"] := by
    apply List.filter_congr
    intro x hx
    fin_cases hx <;> rfl
  have hcatT : configFieldMissing cfg "category" = true := by
    simp [configFieldMissing, hcat]
  have hcatF : configFieldMissing { cfg with category := some cat } "category" = false := by
    simp [configFieldMissing]
  refine ⟨(List.filter (configFieldMissing cfg) ["id", "name", "version", "description"]).map
      (fun f => "Missing required config field: " ++ f),
    (List.filter (configFieldMissing cfg) ["developer"]).map
      (fun f => "Missing required config field: " ++ f) ++
      (match cfg.id with
        | some i => if !idFormatOk i then [idErrStr] else []
        | none => []),
    (match cfg.version with
      | some v => if !isSemver v then [versionWarnStr] else []
      | none => []),
    10 * ((List.filter (configFieldMissing cfg) ["id", "name", "version",
        "description"]).length +
      (List.filter (configFieldMissing cfg) ["developer"]).length) +
      5 * (match cfg.version with
        | some v => if !isSemver v then [versionWarnStr] else []
        | none => []).length +
      15 * (match cfg.id with
        | some i => if !idFormatOk i then [idErrStr] else []
        | none => []).length, ?_, ?_⟩
  · simp only [metaBody, hsplit, List.filter_append, List.filter_cons, List.filter_nil,
      hcfgL1, hcfgL2, hcatF, hvalid, List.map_append, PhaseOut.mk.injEq,
      Bool.not_true, Bool.false_eq_true, if_false, List.append_nil, List.nil_append,
      List.length_append]
    refine ⟨by simp [List.append_assoc], by simp, by simp only [List.length_map, List.length_append, List.length_cons, List.length_nil]; omega⟩
  · simp only [metaBody, hsplit, List.filter_append, List.filter_cons, List.filter_nil,
      hcatT, hcat, List.map_append, PhaseOut.mk.injEq, if_true,
      List.append_nil, List.nil_append, List.length_append]
    refine ⟨by simp [List.append_assoc], by simp, by simp only [List.length_map, List.length_append, List.length_cons, List.length_nil]; omega⟩

/-- When the metadata file parses, the configuration check is never
skipped: no required-file error mentions its name. -/
theorem guardMeta_parsed (d : Dir) (cfg : Config) (hm : d.meta = JsonFile.parsed cfg) :
    guardMeta d = true := by
  unfold guardMeta
  rw [guard_eq_all, List.all_eq_true]
  intro e he
  unfold errsAfterRequired requiredErrs at he
  rw [List.mem_map] at he
  obtain ⟨f, hf, rfl⟩ := he
  rw [List.mem_filter] at hf
  obtain ⟨hfm, hfp⟩ := hf
  simp only [REQUIRED_FILES] at hfm
  fin_cases hfm
  · rw [show filePresent d "mercy-integration.json" = d.meta.present from rfl, hm] at hfp
    simp [JsonFile.present] at hfp
  · decide
  · decide
  · decide

/-- Propagation: two snapshots that differ only in the metadata record,
whose configuration checks differ by one extra error (not mentioning
package.json or src/integration.js) and 10 points, yield runs differing by
exactly 10 points with identical warnings, and the extra error makes the
larger run invalid. -/
theorem validate_meta_shift (d d' : Dir)
    (hpkg : d'.pkg = d.pkg) (hsrc : d'.source = d.source)
    (hreadme : d'.readme = d.readme) (htest : d'.testDir = d.testDir)
    (hmp : d.meta.present = true) (hmp' : d'.meta.present = true)
    (A B W : List String) (Dn : Nat) (e : String)
    (hMO : metaOut d = ⟨A ++ e :: B, W, Dn + 10⟩)
    (hMO' : metaOut d' = ⟨A ++ B, W, Dn⟩)
    (he1 : jsIncludes e "package.json" = false)
    (he2 : jsIncludes e "src/integration.js" = false) :
    (validate d').score = (validate d).score + 10 ∧
    (validate d').warnings = (validate d).warnings ∧
    (validate d).isValid = false := by
  have hfp1 : filePresent d' "mercy-integration.json" = filePresent d "mercy-integration.json" := by
    show d'.meta.present = d.meta.present
    rw [hmp, hmp']
  have hfp2 : filePresent d' "package.json" = filePresent d "package.json" := by
    show d'.pkg.present = d.pkg.present
    rw [hpkg]
  have hfp3 : filePresent d' "src/integration.js" = filePresent d "src/integration.js" := by
    show d'.source.present = d.source.present
    rw [hsrc]
  have hfp4 : filePresent d' "README.md" = filePresent d "README.md" := by
    show d'.readme.present = d.readme.present
    rw [hreadme]
  have hR : requiredErrs d' = requiredErrs d := by
    unfold requiredErrs
    simp only [REQUIRED_FILES, List.filter_cons, List.filter_nil, hfp1, hfp2, hfp3, hfp4]
  have hRd : requiredDelta d' = requiredDelta d := by
    unfold requiredDelta
    simp only [REQUIRED_FILES, List.filter_cons, List.filter_nil, hfp1, hfp2, hfp3, hfp4]
  have hEAM : errsAfterMeta d = requiredErrs d ++ (A ++ e :: B) := by
    unfold errsAfterMeta errsAfterRequired
    rw [hMO]
  have hEAM' : errsAfterMeta d' = requiredErrs d ++ (A ++ B) := by
    unfold errsAfterMeta errsAfterRequired
    rw [hMO', hR]
  have hGP : guardPkg d' = guardPkg d := by
    unfold guardPkg
    rw [guard_eq_all, guard_eq_all, hEAM, hEAM']
    simp [List.all_append, List.all_cons, he1]
  have hPK : pkgOut d' = pkgOut d := by
    unfold pkgOut
    rw [hGP, hpkg]
  have hEAP : errsAfterPkg d = (requiredErrs d ++ (A ++ e :: B)) ++ (pkgOut d).errs := by
    unfold errsAfterPkg
    rw [hEAM]
  have hEAP' : errsAfterPkg d' = (requiredErrs d ++ (A ++ B)) ++ (pkgOut d).errs := by
    unfold errsAfterPkg
    rw [hEAM', hPK]
  have hGS : guardSrc d' = guardSrc d := by
    unfold guardSrc
    rw [guard_eq_all, guard_eq_all, hEAP, hEAP']
    simp [List.all_append, List.all_cons, he2]
  have hSO : srcOut d' = srcOut d := by
    unfold srcOut
    rw [hGS, hsrc]
  have hAO : auxOut d' = auxOut d := by
    unfold auxOut
    rw [hreadme, htest]
  refine ⟨?_, ?_, ?_⟩
  · show finalScore d' = finalScore d + 10
    unfold finalScore
    rw [hRd, hPK, hSO, hAO, hMO, hMO']
    dsimp only
    omega
  · show warnsFinal d' = warnsFinal d
    unfold warnsFinal
    rw [hMO, hMO', hPK, hSO, hAO]
  · have hmem : e ∈ errsFinal d := by
      unfold errsFinal
      rw [hEAP]
      simp
    show ((errsFinal d).length == 0 && decide (70 ≤ finalScore d)) = false
    cases h : errsFinal d with
    | nil => exact absurd h (List.ne_nil_of_mem hmem)
    | cons a l => simp [h]

/-- C4 amended: with a parsed metadata record lacking `category`, adding a
valid category to the otherwise-identical record raises the score by
exactly 10 and leaves the warnings unchanged; but the omission itself is a
hard error, so the category-less run has `isValid = false` regardless of
its score. -/
theorem claim_C4_missing_category (d : Dir) (cfg : Config) (cat : String)
    (hm : d.meta = JsonFile.parsed cfg) (hcat : cfg.category = none)
    (hvalid : validCategories.contains cat = true) :
    (validate { d with meta := JsonFile.parsed { cfg with category := some cat } }).score
      = (validate d).score + 10 ∧
    (validate { d with meta := JsonFile.parsed { cfg with category := some cat } }).warnings
      = (validate d).warnings ∧
    (validate d).isValid = false := by
  obtain ⟨A, B, W, Dn, hP', hP⟩ := metaBody_decomp cfg cat hcat hvalid
  have hg : guardMeta d = true := guardMeta_parsed d cfg hm
  have hg' : guardMeta { d with meta := JsonFile.parsed { cfg with category := some cat } }
      = true :=
    guardMeta_parsed _ { cfg with category := some cat } rfl
  have hMO : metaOut d =
      ⟨A ++ "Missing required config field: category" :: B, W, Dn + 10⟩ := by
    unfold metaOut
    rw [hg, hm]
    simpa using hP
  have hMO' : metaOut { d with meta := JsonFile.parsed { cfg with category := some cat } } =
      ⟨A ++ B, W, Dn⟩ := by
    unfold metaOut
    rw [hg']
    simpa using hP'
  exact validate_meta_shift d _ rfl rfl rfl rfl
    (by rw [show d.meta.present = (JsonFile.parsed cfg).present from congrArg JsonFile.present hm]; rfl)
    rfl A B W Dn "Missing required config field: category" hMO hMO' (by decide) (by decide)

/-- C4 counterexample: omitting `category` from an otherwise fully passing
snapshot drops the score by exactly 10 (to 90, still at least 70) and
changes nothing else, yet flips `isValid` from true to false — the claim
that `isValid` is unaffected fails. -/
theorem claim_C4_counterexample :
    (validate dirNoCat).score = 90 ∧
    (70 : Int) ≤ (validate dirNoCat).score ∧
    (validate dirNoCat).warnings = [] ∧
    (validate dirFull).score = 100 ∧
    (validate dirFull).isValid = true ∧
    (validate dirNoCat).isValid = false := by
  decide

/-- C4 witness: the amended statement instantiated at the concrete
passing snapshot and its category-less variant. -/
theorem claim_C4_witness :
    (validate dirFull).score = (validate dirNoCat).score + 10 ∧
    (validate dirFull).warnings = (validate dirNoCat).warnings ∧
    (validate dirNoCat).isValid = false :=
  claim_C4_missing_category dirNoCat { fullConfig with category := none } "utility"
    rfl rfl (by decide)
